import Mathlib

/-!
Verification development for the query-construction and pagination engine of a
STAC-like geospatial catalog API.  The definitions below are a shallow embedding
of the route handlers `get_all_stacs` (routers/search.py), `get_satellite_stac_data`
and `get_stac_item` (routers/items.py) and of the helpers in utils.py
(`validate_bbox`, `validate_time`, `validate_inputs`, `convert_to_datetime`,
`serialize_rows`).  Python strings become Lean `String`/`List Char`, Python ints
become `Int`, Python `None`-able parameters become `Option`, exceptions become
`Except`.  The static configuration constants (`COLLECTIONS`, `BASE_QUERY`,
`LIMIT`, `OFFSET` from config/settings.py, which is not part of the sources) and
the pure geometry/float libraries (shapely's `wkt.dumps`/`wkt.loads`, Python's
`float`) are taken as parameters of the embedded functions.
-/

/-- Python truthiness of an `Optional[int]` value: `None` and `0` are falsy. -/
def pyTruthyInt : Option Int → Bool
  | none => false
  | some n => n != 0

/-- Python truthiness of an `Optional[str]` value: `None` and `""` are falsy. -/
def pyTruthyStr : Option String → Bool
  | none => false
  | some s => s != ""

/-- Lexicographic comparison of char lists by code point, with the proper-prefix
rule; models Python's `<` on `str` (for the code-point ranges used here). -/
def charListLt : List Char → List Char → Bool
  | [], [] => false
  | [], _ :: _ => true
  | _ :: _, [] => false
  | a :: as, b :: bs => if a < b then true else if b < a then false else charListLt as bs

/-- Python `a < b` on strings. -/
def pyStrLt (a b : String) : Bool := charListLt a.toList b.toList

/-- Python `a > b` on strings (used by the routes' time-range check). -/
def pyStrGt (a b : String) : Bool := pyStrLt b a

/-- Decimal digit character, via a table (index is taken mod 10). -/
def digitChar (d : Nat) : Char :=
  ['0', '1', '2', '3', '4', '5', '6', '7', '8', '9'].getD (d % 10) '0'

/-- Fuel-driven most-significant-first decimal digits of a natural number;
`natChars` below always supplies enough fuel. -/
def natCharsAux : Nat → Nat → List Char
  | 0, _ => []
  | fuel + 1, n => if n < 10 then [digitChar n] else natCharsAux fuel (n / 10) ++ [digitChar (n % 10)]

/-- Decimal digits of a natural number, as Python's `str` renders it. -/
def natChars (n : Nat) : List Char := natCharsAux (n + 1) n

/-- Python `str` of an int, as a char list. -/
def intChars (i : Int) : List Char :=
  if i < 0 then '-' :: natChars i.natAbs else natChars i.natAbs

/-- Python `str` of an int. -/
def intStr (i : Int) : String := ⟨intChars i⟩

/-- Zero-padded two-digit field of `datetime.__str__`. -/
def pad2c (n : Nat) : List Char := if n < 10 then '0' :: natChars n else natChars n

/-- Zero-padded four-digit year field of `datetime.__str__`. -/
def pad4c (n : Nat) : List Char :=
  if n < 10 then '0' :: '0' :: '0' :: natChars n
  else if n < 100 then '0' :: '0' :: natChars n
  else if n < 1000 then '0' :: natChars n
  else natChars n

/-- Zero-padded six-digit microsecond field of `datetime.__str__`. -/
def pad6c (n : Nat) : List Char :=
  if n < 10 then '0' :: '0' :: '0' :: '0' :: '0' :: natChars n
  else if n < 100 then '0' :: '0' :: '0' :: '0' :: natChars n
  else if n < 1000 then '0' :: '0' :: '0' :: natChars n
  else if n < 10000 then '0' :: '0' :: natChars n
  else if n < 100000 then '0' :: natChars n
  else natChars n

/-- A naive Python `datetime.datetime` value. -/
structure DT where
  year : Nat
  month : Nat
  day : Nat
  hour : Nat
  minute : Nat
  second : Nat
  microsecond : Nat
deriving DecidableEq

/-- Chronological strict order on naive datetimes (Python compares them
field-lexicographically). -/
def dtLt (a b : DT) : Bool :=
  if a.year ≠ b.year then a.year < b.year
  else if a.month ≠ b.month then a.month < b.month
  else if a.day ≠ b.day then a.day < b.day
  else if a.hour ≠ b.hour then a.hour < b.hour
  else if a.minute ≠ b.minute then a.minute < b.minute
  else if a.second ≠ b.second then a.second < b.second
  else a.microsecond < b.microsecond

/-- Characters of `str(datetime)`: `YYYY-MM-DD HH:MM:SS[.ffffff]`, the
microsecond part present only when nonzero. -/
def pyStrDTChars (d : DT) : List Char :=
  pad4c d.year ++ '-' :: pad2c d.month ++ '-' :: pad2c d.day ++
    ' ' :: pad2c d.hour ++ ':' :: pad2c d.minute ++ ':' :: pad2c d.second ++
    (if d.microsecond ≠ 0 then '.' :: pad6c d.microsecond else [])

/-- Python `str` of a naive datetime. -/
def pyStrDT (d : DT) : String := ⟨pyStrDTChars d⟩

/-- Numeric value of a decimal digit character. -/
def digVal (c : Char) : Nat := c.toNat - 48

/-- Parse exactly two decimal digits. -/
def parse2 : List Char → Option (Nat × List Char)
  | a :: b :: r => if a.isDigit && b.isDigit then some (digVal a * 10 + digVal b, r) else none
  | _ => none

/-- Parse exactly four decimal digits. -/
def parse4 : List Char → Option (Nat × List Char)
  | a :: b :: c :: d :: r =>
    if a.isDigit && b.isDigit && c.isDigit && d.isDigit then
      some (((digVal a * 10 + digVal b) * 10 + digVal c) * 10 + digVal d, r)
    else none
  | _ => none

/-- Consume one expected character. -/
def expectC (c : Char) : List Char → Option (List Char)
  | x :: r => if x = c then some r else none
  | [] => none

/-- Gregorian leap-year rule. -/
def isLeap (y : Nat) : Bool := (y % 4 == 0 && y % 100 != 0) || y % 400 == 0

/-- Days in a month, as Python's `datetime` validates them. -/
def daysInMonth (y m : Nat) : Nat :=
  if m = 2 then (if isLeap y then 29 else 28)
  else if m = 4 ∨ m = 6 ∨ m = 9 ∨ m = 11 then 30
  else 31

/-- Leading run of decimal digits and its value. -/
def takeDigits : List Char → Nat → Nat → Nat × Nat × List Char
  | [], acc, cnt => (acc, cnt, [])
  | c :: r, acc, cnt =>
    if c.isDigit then takeDigits r (acc * 10 + digVal c) (cnt + 1) else (acc, cnt, c :: r)

/-- Fractional-second part of `datetime.fromisoformat` (pre-3.11): a dot followed
by exactly 3 or 6 digits, yielding microseconds. -/
def parseFrac : List Char → Option (Nat × List Char)
  | '.' :: r =>
    match takeDigits r 0 0 with
    | (v, 3, rest) => some (v * 1000, rest)
    | (v, 6, rest) => some (v, rest)
    | _ => none
  | r => some (0, r)

/-- Time-of-day part of `datetime.fromisoformat` (pre-3.11):
`HH[:MM[:SS[.fff[fff]]]]`, returning `(hour, minute, second, microsecond, rest)`. -/
def parseTimePart (l : List Char) : Option (Nat × Nat × Nat × Nat × List Char) :=
  match parse2 l with
  | none => none
  | some (hh, r1) =>
    if hh ≥ 24 then none
    else match r1 with
    | ':' :: r2 =>
      match parse2 r2 with
      | none => none
      | some (mm, r3) =>
        if mm ≥ 60 then none
        else match r3 with
        | ':' :: r4 =>
          match parse2 r4 with
          | none => none
          | some (ss, r5) =>
            if ss ≥ 60 then none
            else match parseFrac r5 with
              | none => none
              | some (us, r6) => some (hh, mm, ss, us, r6)
        | r4 => some (hh, mm, 0, 0, r4)
    | r2 => some (hh, 0, 0, 0, r2)

/-- Timezone suffix of `datetime.fromisoformat` (pre-3.11): `±HH:MM[:SS[.ffffff]]`,
returned as signed minutes (seconds of offset are ignored by this model's uses). -/
def parseTz : List Char → Option (Option Int × List Char)
  | [] => some (none, [])
  | c :: r =>
    if c = '+' ∨ c = '-' then
      match parse2 r with
      | none => none
      | some (hh, r1) =>
        if hh ≥ 24 then none
        else match expectC ':' r1 with
        | none => none
        | some r2 =>
          match parse2 r2 with
          | none => none
          | some (mm, r3) =>
            if mm ≥ 60 then none
            else
              let base : Int := hh * 60 + mm
              let sgn : Int := if c = '-' then -base else base
              match r3 with
              | ':' :: r4 =>
                match parse2 r4 with
                | none => none
                | some (ss, r5) =>
                  if ss ≥ 60 then none
                  else match parseFrac r5 with
                    | some (_, []) => some (some sgn, [])
                    | _ => none
              | [] => some (some sgn, [])
              | _ => none
    else none

/-- Model of Python's `datetime.fromisoformat` (the pre-3.11 contract):
`YYYY-MM-DD`, optionally followed by any single separator character and
`HH[:MM[:SS[.fff[fff]]]]` and an optional `±HH:MM[:SS[.ffffff]]` timezone.
Returns the naive datetime fields plus the timezone offset in minutes. -/
def pyFromIso (s : String) : Option (DT × Option Int) :=
  match parse4 s.toList with
  | none => none
  | some (y, r1) =>
    match expectC '-' r1 with
    | none => none
    | some r2 =>
      match parse2 r2 with
      | none => none
      | some (mo, r3) =>
        match expectC '-' r3 with
        | none => none
        | some r4 =>
          match parse2 r4 with
          | none => none
          | some (da, r5) =>
            if y = 0 ∨ mo = 0 ∨ mo > 12 ∨ da = 0 ∨ da > daysInMonth y mo then none
            else match r5 with
            | [] => some (⟨y, mo, da, 0, 0, 0, 0⟩, none)
            | _ :: r6 =>
              match parseTimePart r6 with
              | none => none
              | some (hh, mm, ss, us, r7) =>
                match parseTz r7 with
                | some (tz, []) => some (⟨y, mo, da, hh, mm, ss, us⟩, tz)
                | _ => none

/-- Model of Python's `datetime.strptime(s, "%Y-%m-%dT%H:%M:%SZ")` as used by
`utils.convert_to_datetime`: the exact 20-character format, no variations. -/
def strptimeZ (s : String) : Option DT :=
  match parse4 s.toList with
  | none => none
  | some (y, r1) =>
    match expectC '-' r1 with
    | none => none
    | some r2 =>
      match parse2 r2 with
      | none => none
      | some (mo, r3) =>
        match expectC '-' r3 with
        | none => none
        | some r4 =>
          match parse2 r4 with
          | none => none
          | some (da, r5) =>
            match expectC 'T' r5 with
            | none => none
            | some r6 =>
              match parse2 r6 with
              | none => none
              | some (hh, r7) =>
                match expectC ':' r7 with
                | none => none
                | some r8 =>
                  match parse2 r8 with
                  | none => none
                  | some (mm, r9) =>
                    match expectC ':' r9 with
                    | none => none
                    | some r10 =>
                      match parse2 r10 with
                      | none => none
                      | some (ss, r11) =>
                        match expectC 'Z' r11 with
                        | some [] =>
                          if y = 0 ∨ mo = 0 ∨ mo > 12 ∨ da = 0 ∨ da > daysInMonth y mo
                              ∨ hh ≥ 24 ∨ mm ≥ 60 ∨ ss ≥ 60 then none
                          else some ⟨y, mo, da, hh, mm, ss, 0⟩
                        | _ => none

/-- `utils.convert_to_datetime`: `None` stays `None`; a string is parsed with
`strptime "%Y-%m-%dT%H:%M:%SZ"`, and on failure the error is printed and `None`
is returned (the exception is swallowed). -/
def convert_to_datetime (t : Option String) : Option DT := t.bind strptimeZ

/-- A Python runtime exception class relevant to these routes. -/
inductive PyErr
  | typeError
  | nameError
  | shapelyError
  | valueError
deriving DecidableEq

/-- How a request ends early: an `HTTPException(status, detail)` raised by the
handler, or an uncaught Python exception (surfaced as a server error). -/
inductive RErr
  | http (status : Nat) (detail : String)
  | py (e : PyErr)
deriving DecidableEq

/-- `utils.validate_bbox` applied to a `str` argument — what the items route
does at `validate_inputs(coordinates, ...)`: `len` is the string length,
`bbox[:4]` the first four characters, and the `min_lon > max_lon` /
`min_lat > max_lat` checks compare single-character strings. -/
def validate_bbox_str (bbox : Option String) : Except RErr Unit :=
  match bbox with
  | none => .ok ()
  | some s =>
    if ¬(s.length = 4 ∨ s.length = 6) then
      .error (.http 422 "bbox must have 4 or 6 numbers.")
    else
      match s.toList with
      | c0 :: c1 :: c2 :: c3 :: _ =>
        if c0 > c2 ∨ c1 > c3 then .error (.http 422 "bbox coordinates are invalid.")
        else .ok ()
      | _ => .ok ()

/-- `utils.validate_bbox` applied to a list of floats — what the search route
does after rebinding `bbox` to `[float(x) for x in bbox.split(",")]`.  Float
values are modelled as rationals. -/
def validate_bbox_rat (bbox : Option (List ℚ)) : Except RErr Unit :=
  match bbox with
  | none => .ok ()
  | some l =>
    if ¬(l.length = 4 ∨ l.length = 6) then
      .error (.http 422 "bbox must have 4 or 6 numbers.")
    else
      match l with
      | min_lon :: min_lat :: max_lon :: max_lat :: _ =>
        if min_lon > max_lon ∨ min_lat > max_lat then
          .error (.http 422 "bbox coordinates are invalid.")
        else .ok ()
      | _ => .ok ()

/-- `s.endswith('Z')`, via the character list (kernel-computable). -/
def endsWithZ (s : String) : Bool :=
  match s.toList.getLast? with
  | some 'Z' => true
  | _ => false

/-- `utils.validate_time`: `None` passes; otherwise a trailing `Z` is stripped
and the rest must be accepted by `datetime.fromisoformat`. -/
def validate_time (t : Option String) (field_name : String) : Except RErr Unit :=
  match t with
  | none => .ok ()
  | some s =>
    let s' := if endsWithZ s then s.dropRight 1 else s
    if (pyFromIso s').isSome then .ok ()
    else .error (.http 422 ("Invalid " ++ field_name ++ "; Must be in ISO 8601 datetime."))

/-- The dynamic shape of the `bbox` argument the search route hands to
`validate_inputs`: the original string when it was falsy, or the parsed float
list. -/
inductive BboxArg
  | str (s : String)
  | floats (l : List ℚ)

/-- `utils.validate_inputs` as invoked by `get_satellite_stac_data`, which
passes the raw WKT `coordinates` string in the `bbox` position. -/
def validate_inputs_items (coordinates start_time stop_time : Option String) : Except RErr Unit :=
  match validate_bbox_str coordinates with
  | .error e => .error e
  | .ok () =>
    match validate_time start_time "start_time" with
    | .error e => .error e
    | .ok () => validate_time stop_time "stop_time"

/-- `utils.validate_inputs` as invoked by `get_all_stacs` (duck-typed dispatch
of `validate_bbox` over the two shapes `bbox` can have at that point). -/
def validate_inputs_search (bbox : Option BboxArg) (start_time stop_time : Option String) :
    Except RErr Unit :=
  match (match bbox with
         | none => validate_bbox_str none
         | some (.str s) => validate_bbox_str (some s)
         | some (.floats l) => validate_bbox_rat (some l)) with
  | .error e => .error e
  | .ok () =>
    match validate_time start_time "start_time" with
    | .error e => .error e
    | .ok () => validate_time stop_time "stop_time"

/-- A `parse_qs`-style query-parameter dictionary: insertion-ordered keys, each
with a list of values. -/
abbrev ParamsD := List (String × List String)

/-- Python dict item assignment `d[k] = v`: replaces in place, else appends. -/
def setParam : ParamsD → String → List String → ParamsD
  | [], k, v => [(k, v)]
  | (k', v') :: rest, k, v =>
    if k' = k then (k, v) :: rest else (k', v') :: setParam rest k v

/-- Lookup of a key in a parameter dictionary. -/
def lookupP (d : ParamsD) (k : String) : Option (List String) :=
  match d with
  | [] => none
  | (k', v) :: rest => if k' = k then some v else lookupP rest k

/-- The `num`/`limit` reconciliation of `get_satellite_stac_data`
(`if num and num < limit: limit = num`), returning the rebound `limit` and the
`num_and_limit_flag`. -/
def items_eff (num : Option Int) (limit : Int) : Int × Bool :=
  match num with
  | some n => if n ≠ 0 ∧ n < limit then (n, true) else (limit, false)
  | none => (limit, false)

/-- The LIMIT clause value the items route puts in the query: `LIMIT num` when
the flag fired, else `LIMIT limit` when `limit` is truthy, else none. -/
def items_limit_clause (num : Option Int) (limit : Int) : Option Int :=
  let (l, flag) := items_eff num limit
  if flag then some l else if l ≠ 0 then some l else none

/-- The nested `next`-link condition of `get_satellite_stac_data` (lines
184–185), evaluated with the rebound `limit`:
`((num and (limit+offset)<num) and (num and offset<num)) or not num`, then
`len(products) == limit and limit != num`. -/
def items_next_cond (num : Option Int) (limit offset : Int) (nprod : Nat) : Bool :=
  ((pyTruthyInt num && decide (limit + offset < num.getD 0))
      && (pyTruthyInt num && decide (offset < num.getD 0))
    || !pyTruthyInt num)
  && (decide ((nprod : Int) = limit) && decide (some limit ≠ num))

/-- The `next`-link condition of `get_all_stacs` (line 204):
`len(products) == limit`. -/
def search_next_cond (limit : Int) (nprod : Nat) : Bool :=
  decide ((nprod : Int) = limit)

/-- The `next`-URL parameter dictionary built by `get_satellite_stac_data`
(lines 186–201): starts from `parse_qs` of the original URL, then overwrites
`coordinates`, `acquisition_start_utc`/`acquisition_end_utc` (with the
`str(...)` of the *converted* datetimes), `limit` (the rebound value) and
`offset`. -/
def items_next_params (origd : ParamsD) (coordinates : Option String)
    (st sp : Option DT) (limit offset : Int) : ParamsD :=
  let d := origd
  let d := match coordinates with
    | some c => if c ≠ "" then setParam d "coordinates" [c] else d
    | none => d
  let d := match st, sp with
    | some a, some b =>
      setParam (setParam d "acquisition_start_utc" [pyStrDT a]) "acquisition_end_utc" [pyStrDT b]
    | _, _ => d
  let d := if limit ≠ 0 then setParam d "limit" [intStr limit] else d
  if offset ≠ 0 then setParam d "offset" [intStr (limit + offset)]
  else setParam d "offset" [intStr limit]

/-- Python `str` of a float, restricted to the values this development ever
renders: exact for integral floats (`0.0`, `1.0`, …); non-integral rationals are
rendered as fractions, a shape Python never emits, and no theorem relies on it. -/
def pyStrFloat (q : ℚ) : String :=
  if q.den = 1 then intStr q.num ++ ".0" else intStr q.num ++ "/" ++ toString q.den

/-- Python `str` of a list of floats, e.g. `"[0.0, 0.0, 1.0, 1.0]"`. -/
def pyStrFloatList (l : List ℚ) : String :=
  "[" ++ String.intercalate ", " (l.map pyStrFloat) ++ "]"

/-- The `next`-URL parameter dictionary built by `get_all_stacs` (lines
205–219): starts from `parse_qs` of the original URL, then overwrites `bbox`
(with `str` of the rebound float list), `start_time`/`stop_time` (with the
`str(...)` of the *converted* datetimes), `limit` and `offset`. -/
def search_next_params (origd : ParamsD) (bbox : Option (List ℚ))
    (st sp : Option DT) (limit offset : Int) : ParamsD :=
  let d := origd
  let d := match bbox with
    | some l => if l ≠ [] then setParam d "bbox" [pyStrFloatList l] else d
    | none => d
  let d := match st, sp with
    | some a, some b =>
      setParam (setParam d "start_time" [pyStrDT a]) "stop_time" [pyStrDT b]
    | _, _ => d
  let d := if limit ≠ 0 then setParam d "limit" [intStr limit] else d
  if offset ≠ 0 then setParam d "offset" [intStr (limit + offset)]
  else setParam d "offset" [intStr limit]

/-- One appended fragment of the items-route query string (`get_satellite_stac_data`
builds its query by appending these f-string pieces to `BASE_QUERY`). -/
inductive IClause
  | sat (cid : String)
  | spatial (w : String)
  | time (st sp : DT)
  | lim (n : Int)
  | off (n : Int)
deriving DecidableEq

/-- Exact characters each items-route fragment contributes, mirroring the
f-strings at items.py lines 140, 149, 151, 154/157, 159 (interpolated values:
the raw `collectionId`, `wkt.dumps(wkt.loads(coordinates))`, `str(datetime)`,
`str(int)`). -/
def IClause.renderC : IClause → List Char
  | .sat c => "WHERE satellite_name = '".toList ++ c.toList ++ "' ".toList
  | .spatial w =>
    "AND ST_Intersects(ST_GeomFromHEXWKB(bounding_box_wkb),ST_GeomFromText('".toList
      ++ w.toList ++ "')) ".toList
  | .time a b =>
    "AND acquisition_start_utc >= '".toList ++ pyStrDTChars a
      ++ "' AND acquisition_end_utc <= '".toList ++ pyStrDTChars b ++ "' ".toList
  | .lim n => "LIMIT ".toList ++ intChars n ++ [' ']
  | .off n => "OFFSET ".toList ++ intChars n

/-- Concatenation of fragment renders. -/
def joinIC : List IClause → List Char
  | [] => []
  | c :: cs => c.renderC ++ joinIC cs

/-- The ordered fragments the items route appends: satellite filter always,
spatial filter when `coordinates` was given, time range when both converted
datetimes exist, then LIMIT (per the `num` reconciliation) and OFFSET when
truthy.  The `coordinates` and no-`coordinates` branches of the source build
the same shape, differing only in the spatial fragment. -/
def items_clauses (cid : String) (w : Option String) (tf : Option (DT × DT))
    (num : Option Int) (limit offset : Int) : List IClause :=
  [IClause.sat cid]
    ++ (match w with | some ws => [IClause.spatial ws] | none => [])
    ++ (match tf with | some (a, b) => [IClause.time a b] | none => [])
    ++ (match items_limit_clause num limit with | some n => [IClause.lim n] | none => [])
    ++ (if offset ≠ 0 then [IClause.off offset] else [])

/-- The items-route query text: `BASE_QUERY` (configuration, passed in as
`base`) followed by the appended fragments. -/
def items_textC (base : String) (cid : String) (w : Option String) (tf : Option (DT × DT))
    (num : Option Int) (limit offset : Int) : List Char :=
  base.toList ++ joinIC (items_clauses cid w tf num limit offset)

/-- String form of the items-route query text. -/
def items_text (base : String) (cid : String) (w : Option String) (tf : Option (DT × DT))
    (num : Option Int) (limit offset : Int) : String :=
  ⟨items_textC base cid w tf num limit offset⟩

/-- The single-item lookup query text of `get_stac_item` (items.py line 283):
both path parameters are interpolated directly into the text. -/
def item_textC (base : String) (cid itemId : String) : List Char :=
  base.toList ++ "WHERE satellite_name = '".toList ++ cid.toList
    ++ "' AND product_name = '".toList ++ itemId.toList ++ ['\'']

/-- One appended fragment of the search-route query string.  These fragments
carry no user data: scalars are referred to by bound-parameter name. -/
inductive SClause
  | cid
  | bboxI
  | timeOrder
  | lim
  | off
deriving DecidableEq

/-- Exact characters each search-route fragment appends (search.py lines
171, 176, 183, 188, 191). -/
def SClause.renderC : SClause → List Char
  | .cid => " AND satellite_name = :collectionId".toList
  | .bboxI =>
    " AND ST_Intersects(ST_GeomFromWKB(decode(bounding_box_wkb, 'hex'), 4326),ST_MakeEnvelope(:min_lon, :min_lat, :max_lon, :max_lat, 4326))".toList
  | .timeOrder =>
    " AND acquisition_start_utc >= :start_time AND acquisition_end_utc <= :stop_time ORDER BY acquisition_start_utc".toList
  | .lim => " LIMIT :limit".toList
  | .off => " OFFSET :offset".toList

/-- Concatenation of search fragment renders. -/
def joinSC : List SClause → List Char
  | [] => []
  | c :: cs => c.renderC ++ joinSC cs

/-- The ordered fragments `get_all_stacs` appends to its fixed base query. -/
def search_clauses (cid : Option String) (bbox : Option (List ℚ)) (tf : Option (DT × DT))
    (limit offset : Int) : List SClause :=
  (if pyTruthyStr cid then [SClause.cid] else [])
    ++ (match bbox with
        | some l => if l ≠ [] then [SClause.bboxI] else []
        | none => [])
    ++ (match tf with | some _ => [SClause.timeOrder] | none => [])
    ++ (if limit ≠ 0 then [SClause.lim] else [])
    ++ (if offset ≠ 0 then [SClause.off] else [])

/-- The search-route query text (its base is the literal in the source, not
configuration). -/
def search_textC (cid : Option String) (bbox : Option (List ℚ)) (tf : Option (DT × DT))
    (limit offset : Int) : List Char :=
  "SELECT * FROM piersight_stac.stac WHERE TRUE".toList
    ++ joinSC (search_clauses cid bbox tf limit offset)

/-- String form of the search-route query text. -/
def search_text (cid : Option String) (bbox : Option (List ℚ)) (tf : Option (DT × DT))
    (limit offset : Int) : String :=
  ⟨search_textC cid bbox tf limit offset⟩

/-- A value bound to a named query parameter in the search route. -/
inductive PVal
  | s (v : String)
  | q (v : ℚ)
  | i (v : Int)
  | dt (v : DT)
deriving DecidableEq

/-- The bound-parameter dictionary `get_all_stacs` builds next to its query
text (`params[...] = ...` at lines 172, 177–180, 184–185, 189, 192; the bbox
entries are set in the source order `min_lon, max_lon, min_lat, max_lat`).
Returns `none` when the `bbox[:4]` unpacking would raise (fewer than four
elements), which validation makes unreachable. -/
def search_binds (cid : Option String) (bbox : Option (List ℚ)) (tf : Option (DT × DT))
    (limit offset : Int) : Option (List (String × PVal)) :=
  let d : List (String × PVal) :=
    match cid with
    | some c => if c ≠ "" then [("collectionId", PVal.s c)] else []
    | none => []
  match (match bbox with
         | some l =>
           if l ≠ [] then
             match l with
             | min_lon :: min_lat :: max_lon :: max_lat :: _ =>
               some (d ++ [("min_lon", PVal.q min_lon), ("max_lon", PVal.q max_lon),
                           ("min_lat", PVal.q min_lat), ("max_lat", PVal.q max_lat)])
             | _ => none
           else some d
         | none => some d) with
  | none => none
  | some d =>
    let d := match tf with
      | some (a, b) => d ++ [("start_time", PVal.dt a), ("stop_time", PVal.dt b)]
      | none => d
    let d := if limit ≠ 0 then d ++ [("limit", PVal.i limit)] else d
    some (if offset ≠ 0 then d ++ [("offset", .i offset)] else d)

/-- The parameter list of `utils.serialize_rows(rows, keys)`. -/
def serialize_rows_params : List String := ["rows", "keys"]

/-- The first name the body of `serialize_rows` loads: line 101 reads
`dataframe['bounding_box_wkb']`, and `dataframe` is bound nowhere in scope. -/
def serialize_rows_first_load : String := "dataframe"

/-- Names bound at module level of utils.py (imports and function definitions),
the scope a free name in a function body would resolve against. -/
def utils_module_names : List String :=
  ["json", "Optional", "datetime", "HTTPException", "wkb", "to_geojson", "pd", "gpd",
   "stac", "convert_to_datetime", "extract_geometry_coords", "build_products",
   "serialize_rows", "validate_bbox", "validate_time", "validate_inputs", "my_key_builder"]

/-- Outcome of calling `serialize_rows` with `nargs` positional arguments, per
Python call semantics: an arity mismatch raises `TypeError` before the body
runs; otherwise the body's first name load (`dataframe`) must resolve against
the parameters or the module-level names, and raises `NameError` when it does
not.  The successful branch (a list of serialized records, left opaque) is kept
so the callers' downstream code can be modelled, but it is unreachable. -/
def call_serialize_rows (nargs : Nat) : Except PyErr (List Unit) :=
  if nargs ≠ serialize_rows_params.length then .error .typeError
  else if serialize_rows_first_load ∈ serialize_rows_params ++ utils_module_names then .ok []
  else .error .nameError

/-- The response envelope (`StacOutputBase`); the `next` URL is kept as its
query-parameter dictionary. -/
structure Page where
  total_count : Nat
  products : List Unit
  next : Option ParamsD
deriving DecidableEq

deriving instance DecidableEq for Except

/-- What a handler run did: its outcome, whether it opened/used a store
connection itself, and the query texts it executed. -/
structure Trace where
  result : Except RErr Page
  connOpened : Bool
  queries : List String
deriving DecidableEq

/-- Request parameters of `get_satellite_stac_data`, plus `origd`, the
`parse_qs` dictionary of the original URL's query string. -/
structure ItemsArgs where
  collectionId : String
  coordinates : Option String
  start_time : Option String
  stop_time : Option String
  num : Option Int
  limit : Int
  offset : Int
  origd : ParamsD

/-- `get_satellite_stac_data` (items.py lines 130–206).  `collections` is the
`COLLECTIONS` allow-list and `base` the `BASE_QUERY` text (configuration);
`wktn` models `wkt.dumps(wkt.loads(·))` (shapely, a pure library), `none`
meaning the parse raised. -/
def items_route (collections : List String) (base : String)
    (wktn : String → Option String) (a : ItemsArgs) : Trace :=
  if a.collectionId ∉ collections then
    ⟨.error (.http 400 "Invalid satellite"), false, []⟩
  else match validate_inputs_items a.coordinates a.start_time a.stop_time with
  | .error e => ⟨.error e, false, []⟩
  | .ok () =>
    if pyTruthyStr a.start_time && pyTruthyStr a.stop_time
        && pyStrGt (a.start_time.getD "") (a.stop_time.getD "") then
      ⟨.error (.http 400 ("acquisition_start_utc: " ++ a.start_time.getD ""
          ++ " is exceeding acquisition_end_utc: " ++ a.stop_time.getD "")), false, []⟩
    else
      let st := convert_to_datetime a.start_time
      let sp := convert_to_datetime a.stop_time
      let tf : Option (DT × DT) :=
        match st, sp with
        | some x, some y => some (x, y)
        | _, _ => none
      let limit := (items_eff a.num a.limit).1
      let doQuery : Option String → Trace := fun w =>
        let q := items_text base a.collectionId w tf a.num a.limit a.offset
        match call_serialize_rows 1 with
        | .error e => ⟨.error (.py e), true, [q]⟩
        | .ok data =>
          if data.length = 0 then
            ⟨.error (.http 404 ("No data found for the satellite: " ++ a.collectionId)), true, [q]⟩
          else
            let next := if items_next_cond a.num limit a.offset data.length then
                some (items_next_params a.origd a.coordinates st sp limit a.offset)
              else none
            ⟨.ok ⟨data.length, data, next⟩, true, [q]⟩
      match a.coordinates with
      | some c =>
        if c ≠ "" then
          match wktn c with
          | none => ⟨.error (.py .shapelyError), true, []⟩
          | some w => doQuery (some w)
        else doQuery none
      | none => doQuery none

/-- Python `s.split(",")` on the character list: empty input yields one empty
field, adjacent separators yield empty fields. -/
def splitComma : List Char → List (List Char)
  | [] => [[]]
  | c :: r =>
    if c = ',' then [] :: splitComma r
    else
      match splitComma r with
      | f :: rest => (c :: f) :: rest
      | [] => [[c]]

/-- Python `s.split(",")`. -/
def pySplitComma (s : String) : List String :=
  (splitComma s.toList).map fun l => ⟨l⟩

/-- `[float(x) for x in s.split(",")]` with `fp` standing for Python's `float`
parser (a pure library dependency): `none` when any element raises. -/
def parseFloats (fp : String → Option ℚ) : List String → Option (List ℚ)
  | [] => some []
  | t :: ts =>
    match fp t, parseFloats fp ts with
    | some v, some vs => some (v :: vs)
    | _, _ => none

/-- The bbox handling of `get_all_stacs` up to and including `validate_bbox`
(search.py lines 152–158): split/convert a truthy bbox string (422 on a float
failure), then validate; a non-`None` falsy bbox reaches `validate_bbox` as the
original string. -/
def search_bbox_phase (fp : String → Option ℚ) (b : Option String) :
    Except RErr (Option (List ℚ)) :=
  match b with
  | none => .ok none
  | some s =>
    if s ≠ "" then
      match parseFloats fp (pySplitComma s) with
      | none => .error (.http 422 "Invalid bounding box format. Must be comma-separated numbers.")
      | some l =>
        match validate_bbox_rat (some l) with
        | .error e => .error e
        | .ok () => .ok (some l)
    else
      match validate_bbox_str (some s) with
      | .error e => .error e
      | .ok () => .ok none

/-- Request parameters of `get_all_stacs`, plus the `parse_qs` dictionary of
the original URL's query string. -/
structure SearchArgs where
  collectionId : Option String
  bbox : Option String
  start_time : Option String
  stop_time : Option String
  limit : Int
  offset : Int
  origd : ParamsD

/-- `get_all_stacs` (search.py lines 149–224).  The store session is a request
dependency; `connOpened` is set when the route itself executes a query. -/
def search_route (collections : List String) (fp : String → Option ℚ) (a : SearchArgs) : Trace :=
  if pyTruthyStr a.collectionId && decide (a.collectionId.getD "" ∉ collections) then
    ⟨.error (.http 400 ("Invalid collection ID. Must be one of: "
        ++ String.intercalate ", " collections)), false, []⟩
  else
    let conv : Except RErr (Option BboxArg × Option (List ℚ)) :=
      match a.bbox with
      | some s =>
        if s ≠ "" then
          match parseFloats fp (pySplitComma s) with
          | none => .error (.http 422 "Invalid bounding box format. Must be comma-separated numbers.")
          | some l => .ok (some (.floats l), some l)
        else .ok (some (.str s), none)
      | none => .ok (none, none)
    match conv with
    | .error e => ⟨.error e, false, []⟩
    | .ok (barg, blist) =>
      match validate_inputs_search barg a.start_time a.stop_time with
      | .error e => ⟨.error e, false, []⟩
      | .ok () =>
        if pyTruthyStr a.start_time && pyTruthyStr a.stop_time
            && pyStrGt (a.start_time.getD "") (a.stop_time.getD "") then
          ⟨.error (.http 400 ("acquisition_start_utc: " ++ a.start_time.getD ""
              ++ " is exceeding acquisition_end_utc: " ++ a.stop_time.getD "")), false, []⟩
        else
          let stp : Option DT × Option DT :=
            if pyTruthyStr a.start_time && pyTruthyStr a.stop_time then
              (convert_to_datetime a.start_time, convert_to_datetime a.stop_time)
            else (none, none)
          let tf : Option (DT × DT) :=
            match stp.1, stp.2 with
            | some x, some y => some (x, y)
            | _, _ => none
          let q := search_text a.collectionId blist tf a.limit a.offset
          match search_binds a.collectionId blist tf a.limit a.offset with
          | none => ⟨.error (.py .valueError), false, []⟩
          | some _binds =>
            match call_serialize_rows 2 with
            | .error e => ⟨.error (.py e), true, [q]⟩
            | .ok data =>
              if data.length = 0 then
                ⟨.error (.http 404 "No data found matching the search criteria"), true, [q]⟩
              else
                let next := if search_next_cond a.limit data.length then
                    some (search_next_params a.origd blist stp.1 stp.2 a.limit a.offset)
                  else none
                ⟨.ok ⟨data.length, data, next⟩, true, [q]⟩

/-- `get_stac_item` (items.py lines 278–295): allow-list check, then a query
with both path parameters interpolated, then `serialize_rows(dataframe)` with a
single argument. -/
def item_route (collections : List String) (base : String) (cid itemId : String) : Trace :=
  if cid ∉ collections then ⟨.error (.http 400 "Invalid satellite"), false, []⟩
  else
    let q : String := ⟨item_textC base cid itemId⟩
    match call_serialize_rows 1 with
    | .error e => ⟨.error (.py e), true, [q]⟩
    | .ok data =>
      if data.length = 0 then
        ⟨.error (.http 404 ("No item: " ++ itemId ++ " found for the satellite: " ++ cid)),
          true, [q]⟩
      else ⟨.ok ⟨data.length, data, none⟩, true, [q]⟩

/-- `leadsWith p l`: `p` is a prefix of `l`. -/
def leadsWith : List Char → List Char → Bool
  | [], _ => true
  | _ :: _, [] => false
  | a :: as, b :: bs => a == b && leadsWith as bs

/-- `hasSeq p l`: `p` occurs contiguously inside `l` (substring containment,
used to state "the query text contains an `ORDER BY` clause"). -/
def hasSeq (p : List Char) : List Char → Bool
  | [] => leadsWith p []
  | c :: r => leadsWith p (c :: r) || hasSeq p r

/-- The SQL ordering keyword. -/
def orderKey : List Char := "ORDER BY".toList

theorem leadsWith_mem {p l : List Char} (h : leadsWith p l = true) : ∀ c ∈ p, c ∈ l := by
  induction p generalizing l with
  | nil => intro c hc; simp at hc
  | cons a as ih =>
    cases l with
    | nil => simp [leadsWith] at h
    | cons b bs =>
      simp [leadsWith] at h
      obtain ⟨hab, hrest⟩ := h
      intro c hc
      rcases List.mem_cons.mp hc with rfl | hc'
      · simp [hab]
      · exact List.mem_cons_of_mem _ (ih hrest c hc')

theorem hasSeq_mem {p l : List Char} (h : hasSeq p l = true) : ∀ c ∈ p, c ∈ l := by
  induction l with
  | nil => exact leadsWith_mem (by simpa [hasSeq] using h)
  | cons x r ih =>
    simp [hasSeq] at h
    intro c hc
    rcases h with h | h
    · exact leadsWith_mem h c hc
    · exact List.mem_cons_of_mem _ (ih h c hc)

theorem noSeq_of_missing {p l : List Char} {c : Char} (hc : c ∈ p) (hl : c ∉ l) :
    hasSeq p l = false := by
  by_contra h
  exact hl (hasSeq_mem (by simpa using h) c hc)

theorem leadsWith_extend {p u b : List Char} (h : leadsWith p (u ++ b) = true)
    (h2 : leadsWith p u = false) :
    ∃ t, p = u ++ t ∧ t ≠ [] ∧ leadsWith t b = true := by
  induction u generalizing p with
  | nil =>
    refine ⟨p, rfl, ?_, by simpa using h⟩
    intro hp; subst hp; simp [leadsWith] at h2
  | cons x u' ih =>
    cases p with
    | nil => simp [leadsWith] at h2
    | cons y p' =>
      simp [leadsWith] at h
      obtain ⟨hyx, hp'⟩ := h
      have hlw : leadsWith p' u' = false := by
        cases hq : leadsWith p' u' with
        | false => rfl
        | true => simp [leadsWith, hyx, hq] at h2
      obtain ⟨t, ht, htne, htb⟩ := ih hp' hlw
      exact ⟨t, by simp [hyx, ht], htne, htb⟩

theorem hasSeq_append {p a b : List Char} (h : hasSeq p (a ++ b) = true) :
    hasSeq p a = true ∨ hasSeq p b = true ∨
      ∃ s t, s ++ t = p ∧ s ≠ [] ∧ t ≠ [] ∧ leadsWith t b = true := by
  induction a with
  | nil => exact Or.inr (Or.inl (by simpa using h))
  | cons x a' ih =>
    rw [List.cons_append] at h
    simp only [hasSeq, Bool.or_eq_true] at h
    rcases h with h | h
    · by_cases hlw : leadsWith p (x :: a') = true
      · left; simp [hasSeq, hlw]
      · have hext := leadsWith_extend (p := p) (u := x :: a') (b := b)
          (by simpa using h) (by simpa using hlw)
        obtain ⟨t, hpt, htne, htb⟩ := hext
        exact Or.inr (Or.inr ⟨x :: a', t, hpt.symm, by simp, htne, htb⟩)
    · rcases ih h with h' | h' | ⟨s, t, hst, hsne, htne, htb⟩
      · left; simp [hasSeq, h']
      · exact Or.inr (Or.inl h')
      · exact Or.inr (Or.inr ⟨s, t, hst, hsne, htne, htb⟩)

theorem orderKey_split_heads {s t : List Char} (h : s ++ t = orderKey) (hs : s ≠ [])
    (ht : t ≠ []) :
    t.head? = some 'R' ∨ t.head? = some 'D' ∨ t.head? = some 'E' ∨
      t.head? = some ' ' ∨ t.head? = some 'B' ∨ t.head? = some 'Y' := by
  have hsuf : t <:+ orderKey := ⟨s, h⟩
  have hmem : t ∈ orderKey.tails := (List.mem_tails t orderKey).mpr hsuf
  rw [show orderKey.tails =
    ["ORDER BY".toList, "RDER BY".toList, "DER BY".toList, "ER BY".toList, "R BY".toList,
     " BY".toList, "BY".toList, "Y".toList, []] from by decide] at hmem
  simp only [List.mem_cons, List.not_mem_nil, or_false] at hmem
  rcases hmem with rfl | rfl | rfl | rfl | rfl | rfl | rfl | rfl | rfl
  · exfalso
    have hl := congrArg List.length h
    simp [orderKey] at hl
    exact hs hl
  · left; rfl
  · right; left; rfl
  · right; right; left; rfl
  · left; rfl
  · right; right; right; left; rfl
  · right; right; right; right; left; rfl
  · right; right; right; right; right; rfl
  · exact absurd rfl ht

theorem leadsWith_head {t : List Char} {x : Char} {l : List Char}
    (h : leadsWith t (x :: l) = true) (ht : t ≠ []) : t.head? = some x := by
  cases t with
  | nil => exact absurd rfl ht
  | cons a as =>
    simp [leadsWith] at h
    simp [h.1]

/-- The decimal digit characters. -/
def digitList : List Char := ['0', '1', '2', '3', '4', '5', '6', '7', '8', '9']

/-- Characters that can occur in `str(datetime)`. -/
def dtCharSet : List Char := '-' :: ' ' :: ':' :: '.' :: digitList

theorem digitChar_mem (d : Nat) : digitChar d ∈ digitList := by
  unfold digitChar digitList
  have h : d % 10 < 10 := Nat.mod_lt _ (by norm_num)
  set k := d % 10 with hk
  interval_cases k <;> decide

theorem natCharsAux_mem (fuel n : Nat) : ∀ c ∈ natCharsAux fuel n, c ∈ digitList := by
  induction fuel generalizing n with
  | zero => intro c hc; simp [natCharsAux] at hc
  | succ f ih =>
    intro c hc
    simp only [natCharsAux] at hc
    by_cases h : n < 10
    · rw [if_pos h] at hc
      simp only [List.mem_singleton] at hc
      exact hc ▸ digitChar_mem n
    · rw [if_neg h] at hc
      rcases List.mem_append.mp hc with hc | hc
      · exact ih _ c hc
      · simp only [List.mem_singleton] at hc
        exact hc ▸ digitChar_mem _

theorem natChars_mem (n : Nat) : ∀ c ∈ natChars n, c ∈ digitList :=
  natCharsAux_mem _ _

theorem pad2c_mem (n : Nat) : ∀ c ∈ pad2c n, c ∈ digitList := by
  intro c hc
  unfold pad2c at hc
  split_ifs at hc
  · rcases List.mem_cons.mp hc with rfl | hc
    · decide
    · exact natChars_mem _ c hc
  · exact natChars_mem _ c hc

theorem pad4c_mem (n : Nat) : ∀ c ∈ pad4c n, c ∈ digitList := by
  intro c hc
  unfold pad4c at hc
  split_ifs at hc
  · simp only [List.mem_cons] at hc
    rcases hc with rfl | rfl | rfl | hc
    · decide
    · decide
    · decide
    · exact natChars_mem _ c hc
  · simp only [List.mem_cons] at hc
    rcases hc with rfl | rfl | hc
    · decide
    · decide
    · exact natChars_mem _ c hc
  · simp only [List.mem_cons] at hc
    rcases hc with rfl | hc
    · decide
    · exact natChars_mem _ c hc
  · exact natChars_mem _ c hc

theorem pad6c_mem (n : Nat) : ∀ c ∈ pad6c n, c ∈ digitList := by
  intro c hc
  unfold pad6c at hc
  split_ifs at hc
  · simp only [List.mem_cons] at hc
    rcases hc with rfl | rfl | rfl | rfl | rfl | hc
    · decide
    · decide
    · decide
    · decide
    · decide
    · exact natChars_mem _ c hc
  · simp only [List.mem_cons] at hc
    rcases hc with rfl | rfl | rfl | rfl | hc
    · decide
    · decide
    · decide
    · decide
    · exact natChars_mem _ c hc
  · simp only [List.mem_cons] at hc
    rcases hc with rfl | rfl | rfl | hc
    · decide
    · decide
    · decide
    · exact natChars_mem _ c hc
  · simp only [List.mem_cons] at hc
    rcases hc with rfl | rfl | hc
    · decide
    · decide
    · exact natChars_mem _ c hc
  · simp only [List.mem_cons] at hc
    rcases hc with rfl | hc
    · decide
    · exact natChars_mem _ c hc
  · exact natChars_mem _ c hc

theorem intChars_mem (i : Int) : ∀ c ∈ intChars i, c ∈ '-' :: digitList := by
  intro c hc
  unfold intChars at hc
  split_ifs at hc
  · rcases List.mem_cons.mp hc with rfl | hc
    · exact List.mem_cons_self _ _
    · exact List.mem_cons_of_mem _ (natChars_mem _ c hc)
  · exact List.mem_cons_of_mem _ (natChars_mem _ c hc)

theorem digit_in_dtSet {c : Char} (h : c ∈ digitList) : c ∈ dtCharSet := by
  unfold dtCharSet
  exact List.mem_cons_of_mem _ (List.mem_cons_of_mem _ (List.mem_cons_of_mem _
    (List.mem_cons_of_mem _ h)))

theorem pyStrDTChars_mem (d : DT) : ∀ c ∈ pyStrDTChars d, c ∈ dtCharSet := by
  intro c hc
  unfold pyStrDTChars at hc
  split_ifs at hc
  · simp only [List.mem_append, List.mem_cons, List.not_mem_nil, or_false, or_assoc] at hc
    rcases hc with h | rfl | h | rfl | h | rfl | h | rfl | h | rfl | h | rfl | h
    · exact digit_in_dtSet (pad4c_mem _ c h)
    · decide
    · exact digit_in_dtSet (pad2c_mem _ c h)
    · decide
    · exact digit_in_dtSet (pad2c_mem _ c h)
    · decide
    · exact digit_in_dtSet (pad2c_mem _ c h)
    · decide
    · exact digit_in_dtSet (pad2c_mem _ c h)
    · decide
    · exact digit_in_dtSet (pad2c_mem _ c h)
    · decide
    · exact digit_in_dtSet (pad6c_mem _ c h)
  · simp only [List.mem_append, List.mem_cons, List.not_mem_nil, or_false, or_assoc,
      List.append_nil] at hc
    rcases hc with h | rfl | h | rfl | h | rfl | h | rfl | h | rfl | h
    · exact digit_in_dtSet (pad4c_mem _ c h)
    · decide
    · exact digit_in_dtSet (pad2c_mem _ c h)
    · decide
    · exact digit_in_dtSet (pad2c_mem _ c h)
    · decide
    · exact digit_in_dtSet (pad2c_mem _ c h)
    · decide
    · exact digit_in_dtSet (pad2c_mem _ c h)
    · decide
    · exact digit_in_dtSet (pad2c_mem _ c h)

theorem renderC_head (c : IClause) :
    (IClause.renderC c).head? = some 'W' ∨ (IClause.renderC c).head? = some 'A' ∨
      (IClause.renderC c).head? = some 'L' ∨ (IClause.renderC c).head? = some 'O' := by
  cases c with
  | sat s => left; rfl
  | spatial w => right; left; rfl
  | time a b => right; left; rfl
  | lim n => right; right; left; rfl
  | off n => right; right; right; rfl

theorem span_joinIC_false {s t : List Char} (cs : List IClause) (hst : s ++ t = orderKey)
    (hsne : s ≠ []) (htne : t ≠ []) (htb : leadsWith t (joinIC cs) = true) : False := by
  cases cs with
  | nil =>
    cases t with
    | nil => exact htne rfl
    | cons x xs => simp [joinIC, leadsWith] at htb
  | cons c' cs' =>
    have hh := renderC_head c'
    rcases hhead : IClause.renderC c' with _ | ⟨a, rest⟩
    · rw [hhead] at hh; simp at hh
    · have hjoin : joinIC (c' :: cs') = a :: (rest ++ joinIC cs') := by
        rw [joinIC, hhead]; rfl
      rw [hjoin] at htb
      have hth := leadsWith_head htb htne
      have hsplit := orderKey_split_heads hst hsne htne
      rw [hhead] at hh
      simp only [List.head?_cons, Option.some.injEq] at hh
      rw [hth] at hsplit
      simp only [Option.some.injEq] at hsplit
      rcases hh with rfl | rfl | rfl | rfl <;> simp at hsplit

theorem joinIC_append (cs ds : List IClause) :
    joinIC (cs ++ ds) = joinIC cs ++ joinIC ds := by
  induction cs with
  | nil => simp [joinIC]
  | cons c cs ih => simp [joinIC, ih]

theorem joinIC_append_noSeq {cs ds : List IClause}
    (h1 : hasSeq orderKey (joinIC cs) = false)
    (h2 : hasSeq orderKey (joinIC ds) = false) :
    hasSeq orderKey (joinIC (cs ++ ds)) = false := by
  rw [joinIC_append]
  by_contra hcon
  rcases hasSeq_append (p := orderKey) (by simpa using hcon) with h | h | ⟨s, t, hst, hsne, htne, htb⟩
  · rw [h1] at h; exact Bool.false_ne_true h
  · rw [h2] at h; exact Bool.false_ne_true h
  · exact span_joinIC_false ds hst hsne htne htb

theorem singleton_noSeq {c : IClause} (h : hasSeq orderKey c.renderC = false) :
    hasSeq orderKey (joinIC [c]) = false := by
  rw [joinIC, joinIC, List.append_nil]
  exact h

theorem time_render_noSeq (a b : DT) :
    hasSeq orderKey (IClause.renderC (.time a b)) = false := by
  apply noSeq_of_missing (c := 'R')
  · decide
  · intro hR
    simp only [IClause.renderC, List.mem_append, or_assoc] at hR
    rcases hR with h | h | h | h | h
    · exact absurd h (by decide)
    · exact absurd (pyStrDTChars_mem a 'R' h) (by decide)
    · exact absurd h (by decide)
    · exact absurd (pyStrDTChars_mem b 'R' h) (by decide)
    · exact absurd h (by decide)

theorem lim_render_noSeq (n : Int) :
    hasSeq orderKey (IClause.renderC (.lim n)) = false := by
  apply noSeq_of_missing (c := 'R')
  · decide
  · intro hR
    simp only [IClause.renderC, List.mem_append, or_assoc] at hR
    rcases hR with h | h | h
    · exact absurd h (by decide)
    · exact absurd (intChars_mem n 'R' h) (by decide)
    · exact absurd h (by decide)

theorem off_render_noSeq (n : Int) :
    hasSeq orderKey (IClause.renderC (.off n)) = false := by
  apply noSeq_of_missing (c := 'R')
  · decide
  · intro hR
    simp only [IClause.renderC, List.mem_append] at hR
    rcases hR with h | h
    · exact absurd h (by decide)
    · exact absurd (intChars_mem n 'R' h) (by decide)

theorem items_clauses_noSeq (cid : String) (w : Option String) (tf : Option (DT × DT))
    (num : Option Int) (limit offset : Int)
    (hs : hasSeq orderKey (IClause.renderC (.sat cid)) = false)
    (hw : ∀ ws, w = some ws → hasSeq orderKey (IClause.renderC (.spatial ws)) = false) :
    hasSeq orderKey (joinIC (items_clauses cid w tf num limit offset)) = false := by
  unfold items_clauses
  apply joinIC_append_noSeq
  apply joinIC_append_noSeq
  apply joinIC_append_noSeq
  apply joinIC_append_noSeq
  · exact singleton_noSeq hs
  · rcases w with _ | ws
    · decide
    · exact singleton_noSeq (hw ws rfl)
  · rcases tf with _ | ⟨x, y⟩
    · decide
    · exact singleton_noSeq (time_render_noSeq x y)
  · rcases items_limit_clause num limit with _ | n
    · decide
    · exact singleton_noSeq (lim_render_noSeq n)
  · by_cases ho : offset ≠ 0
    · rw [if_pos ho]; exact singleton_noSeq (off_render_noSeq offset)
    · rw [if_neg ho]; decide

theorem items_textC_noSeq (base : String) (cid : String) (w : Option String)
    (tf : Option (DT × DT)) (num : Option Int) (limit offset : Int)
    (hb : hasSeq orderKey base.toList = false)
    (hs : hasSeq orderKey (IClause.renderC (.sat cid)) = false)
    (hw : ∀ ws, w = some ws → hasSeq orderKey (IClause.renderC (.spatial ws)) = false) :
    hasSeq orderKey (items_textC base cid w tf num limit offset) = false := by
  unfold items_textC
  simp only [String.toList] at hb
  by_contra hcon
  rcases hasSeq_append (p := orderKey) (by simpa using hcon) with h | h | ⟨s, t, hst, hsne, htne, htb⟩
  · rw [hb] at h; exact Bool.false_ne_true h
  · rw [items_clauses_noSeq cid w tf num limit offset hs hw] at h
    exact Bool.false_ne_true h
  · exact span_joinIC_false _ hst hsne htne htb

set_option maxRecDepth 4096 in
theorem search_textC_flags (p1 p2 p3 p4 : Prop) [Decidable p1] [Decidable p2] [Decidable p3]
    [Decidable p4] (tfo : Option (DT × DT)) :
    hasSeq orderKey ("SELECT * FROM piersight_stac.stac WHERE TRUE".toList ++ joinSC
      ((if p1 then [SClause.cid] else [])
        ++ (if p2 then [SClause.bboxI] else [])
        ++ (match tfo with | some _ => [SClause.timeOrder] | none => [])
        ++ (if p3 then [SClause.lim] else [])
        ++ (if p4 then [SClause.off] else []))) = tfo.isSome := by
  rcases tfo with _ | ⟨x, y⟩ <;>
    by_cases h1 : p1 <;> by_cases h2 : p2 <;> by_cases h3 : p3 <;> by_cases h4 : p4 <;>
    simp only [h1, h2, h3, h4, if_true, if_false, eq_self_iff_true, if_pos, if_neg,
      not_false_iff, ite_true, ite_false, Option.isSome_some, Option.isSome_none] <;>
    decide

theorem search_textC_order (cid : Option String) (bbox : Option (List ℚ))
    (tf : Option (DT × DT)) (limit offset : Int) :
    hasSeq orderKey (search_textC cid bbox tf limit offset) = tf.isSome := by
  have hbb : (match bbox with
      | some l => if l ≠ [] then [SClause.bboxI] else []
      | none => ([] : List SClause)) = if bbox.getD [] ≠ [] then [SClause.bboxI] else [] := by
    rcases bbox with _ | l
    · simp
    · simp [Option.getD]
  unfold search_textC search_clauses
  rw [hbb]
  exact search_textC_flags (pyTruthyStr cid = true) (bbox.getD [] ≠ []) (limit ≠ 0)
    (offset ≠ 0) tf

theorem mem_setParam_of_ne {d : ParamsD} {k k' : String} {v v' : List String}
    (h : (k, v) ∈ d) (hne : k ≠ k') : (k, v) ∈ setParam d k' v' := by
  induction d with
  | nil => simp at h
  | cons p rest ih =>
    obtain ⟨pk, pv⟩ := p
    unfold setParam
    by_cases hpk : pk = k'
    · rw [if_pos hpk]
      rcases List.mem_cons.mp h with heq | hmem
      · exact absurd ((congrArg Prod.fst heq).trans hpk) hne
      · exact List.mem_cons_of_mem _ hmem
    · rw [if_neg hpk]
      rcases List.mem_cons.mp h with heq | hmem
      · rw [heq]; exact List.mem_cons_self _ _
      · exact List.mem_cons_of_mem _ (ih hmem)

theorem mem_setParam_self (d : ParamsD) (k : String) (v : List String) :
    (k, v) ∈ setParam d k v := by
  induction d with
  | nil => simp [setParam]
  | cons p rest ih =>
    obtain ⟨pk, pv⟩ := p
    unfold setParam
    by_cases hpk : pk = k
    · rw [if_pos hpk]; exact List.mem_cons_self _ _
    · rw [if_neg hpk]; exact List.mem_cons_of_mem _ ih

theorem lookup_setParam_self (d : ParamsD) (k : String) (v : List String) :
    lookupP (setParam d k v) k = some v := by
  induction d with
  | nil => simp [setParam, lookupP]
  | cons p rest ih =>
    obtain ⟨pk, pv⟩ := p
    unfold setParam
    by_cases hpk : pk = k
    · rw [if_pos hpk]; simp [lookupP]
    · rw [if_neg hpk]; simp [lookupP, hpk]; exact ih

theorem lookup_setParam_other {k k' : String} (hne : k' ≠ k) (d : ParamsD) (v' : List String) :
    lookupP (setParam d k' v') k = lookupP d k := by
  induction d with
  | nil => simp [setParam, lookupP, hne]
  | cons p rest ih =>
    obtain ⟨pk, pv⟩ := p
    unfold setParam
    by_cases hpk : pk = k'
    · rw [if_pos hpk]
      simp [lookupP, hne, hpk]
    · rw [if_neg hpk]
      by_cases hk : pk = k
      · simp [lookupP, hk]
      · simp [lookupP, hk]; exact ih

/-- C1 (amended: `num ≠ 0`; Python's `if num and num < limit` treats `num = 0`
as not supplied).  For the collection-items listing with `num` and `limit`
supplied, `num ≠ 0` and `num < limit`, the rebinding makes `num` the effective
limit, the store query's LIMIT clause carries `num`, and the next-URL
parameters carry `limit = num` and `offset = offset + num` (the effective
limit, not the original `limit`). -/
theorem C1_num_limit_corrected (n limit offset : Int) (origd : ParamsD)
    (coords : Option String) (st sp : Option DT)
    (hn : n ≠ 0) (hlt : n < limit) :
    items_eff (some n) limit = (n, true) ∧
    items_limit_clause (some n) limit = some n ∧
    lookupP (items_next_params origd coords st sp n offset) "limit" = some [intStr n] ∧
    lookupP (items_next_params origd coords st sp n offset) "offset"
      = some [intStr (n + offset)] := by
  have heff : items_eff (some n) limit = (n, true) := by
    simp [items_eff, hn, hlt]
  refine ⟨heff, ?_, ?_, ?_⟩
  · unfold items_limit_clause
    rw [heff]
    simp
  · simp only [items_next_params]
    by_cases ho : offset ≠ 0
    · rw [if_pos ho, lookup_setParam_other (by decide), if_pos hn, lookup_setParam_self]
    · rw [if_neg ho, lookup_setParam_other (by decide), if_pos hn, lookup_setParam_self]
  · simp only [items_next_params]
    by_cases ho : offset ≠ 0
    · rw [if_pos ho, lookup_setParam_self]
    · rw [if_neg ho, lookup_setParam_self]
      have : offset = 0 := by omega
      rw [this, Int.add_zero]

/-- Witness for C1 at `num = 3`, `limit = 7`, `offset = 4`. -/
theorem C1_num_limit_witness :
    items_eff (some 3) 7 = (3, true) ∧
    items_limit_clause (some 3) 7 = some 3 ∧
    lookupP (items_next_params [] none none none 3 4) "limit" = some [intStr 3] ∧
    lookupP (items_next_params [] none none none 3 4) "offset" = some [intStr (3 + 4)] :=
  C1_num_limit_corrected 3 7 4 [] none none none (by decide) (by decide)

/-- C1 counterexample: with `num = 0` supplied and `limit = 1` (so
`num < limit`), the store query's LIMIT clause is `1`, not `num = 0` — the
claim's "the effective limit used for the store query is num" fails because
`0` is falsy in Python. -/
theorem C1_num_limit_counterexample :
    (0 : Int) < 1 ∧ items_limit_clause (some 0) 1 = some 1 ∧ (1 : Int) ≠ 0 := by decide

/-- C2 (amended: `num`, when supplied, must be nonzero; with `num = 0` the code
takes the `not num` branch and still emits a next link).  A next link is
produced iff the number of items returned equals the (rebound) effective limit
and, when `num` is supplied, `offset + effective_limit < num`; in the search
route a next link is produced iff the count equals `limit`. -/
theorem C2_next_iff_corrected (num : Option Int) (eff offset : Int) (nprod : Nat)
    (heff : 1 ≤ eff) (hoff : 0 ≤ offset) (hnum : num ≠ some 0) :
    (items_next_cond num eff offset nprod = true ↔
      ((nprod : Int) = eff ∧ ∀ n, num = some n → offset + eff < n)) ∧
    (∀ (limit : Int) (m : Nat), search_next_cond limit m = true ↔ (m : Int) = limit) := by
  constructor
  · rcases num with _ | n
    · simp [items_next_cond, pyTruthyInt]
    · have hn : n ≠ 0 := by
        intro h; exact hnum (by rw [h])
      simp only [items_next_cond, pyTruthyInt, Option.getD_some, bne_iff_ne, ne_eq,
        Bool.and_eq_true, Bool.or_eq_true, Bool.not_eq_true', decide_eq_true_eq,
        decide_eq_false_iff_not, Option.some.injEq, forall_eq']
      constructor
      · rintro ⟨h1, h2, h3⟩
        rcases h1 with ⟨⟨⟨-, hlt1⟩, -, hlt2⟩⟩ | hfalse
        · exact ⟨h2, by omega⟩
        · simp [hn] at hfalse
      · rintro ⟨h2, hlt⟩
        refine ⟨Or.inl ⟨⟨hn, by omega⟩, hn, by omega⟩, h2, ?_⟩
        omega
  · intro limit m
    simp [search_next_cond]

/-- Witness for C2 at `num = 10`, effective limit `2`, `offset = 0`, two
products returned: a next link is emitted. -/
theorem C2_next_iff_witness : items_next_cond (some 10) 2 0 2 = true := by
  have h := (C2_next_iff_corrected (some 10) 2 0 2 (by decide) (by decide) (by decide)).1
  exact h.mpr ⟨by decide, by intro n hn; injection hn with hh; subst hh; decide⟩

/-- C2 counterexample: with `num = 0` supplied, effective limit `1`,
`offset = 0` and one product returned, the code emits a next link although
`offset + effective_limit` has already reached `num = 0` — the claim requires
`next` to be null here. -/
theorem C2_next_iff_counterexample :
    items_next_cond (some 0) 1 0 1 = true ∧ ¬((0 : Int) + 1 < 0) := by decide

theorem mem_coords_step {k : String} {v : List String} (d : ParamsD) (coords : Option String)
    (h : (k, v) ∈ d)
    (hcoord : k = "coordinates" → ∀ c, coords = some c → c ≠ "" → v = [c]) :
    (k, v) ∈ (match coords with
      | some c => if c ≠ "" then setParam d "coordinates" [c] else d
      | none => d) := by
  rcases coords with _ | c
  · exact h
  · show (k, v) ∈ if c ≠ "" then setParam d "coordinates" [c] else d
    by_cases hc : c = ""
    · rw [if_neg (not_not_intro hc)]
      exact h
    · rw [if_pos hc]
      by_cases hk : k = "coordinates"
      · rw [hk, hcoord hk c rfl hc]
        exact mem_setParam_self _ _ _
      · exact mem_setParam_of_ne h hk

theorem mem_bbox_step {k : String} {v : List String} (d : ParamsD) (bbox : Option (List ℚ))
    (h : (k, v) ∈ d) (hk : k ≠ "bbox") :
    (k, v) ∈ (match bbox with
      | some l => if l ≠ [] then setParam d "bbox" [pyStrFloatList l] else d
      | none => d) := by
  rcases bbox with _ | l
  · exact h
  · show (k, v) ∈ if l ≠ [] then setParam d "bbox" [pyStrFloatList l] else d
    by_cases hl : l = []
    · rw [if_neg (not_not_intro hl)]
      exact h
    · rw [if_pos hl]
      exact mem_setParam_of_ne h hk

theorem mem_times_step {k : String} {v : List String} (d : ParamsD) (st sp : Option DT)
    (kS kE : String) (h : (k, v) ∈ d) (h1 : k ≠ kS) (h2 : k ≠ kE) :
    (k, v) ∈ (match st, sp with
      | some a, some b => setParam (setParam d kS [pyStrDT a]) kE [pyStrDT b]
      | _, _ => d) := by
  rcases st with _ | a <;> rcases sp with _ | b
  · exact h
  · exact h
  · exact h
  · exact mem_setParam_of_ne (mem_setParam_of_ne h h1) h2

theorem mem_limit_step {k : String} {v : List String} (d : ParamsD) (limit : Int)
    (h : (k, v) ∈ d) (hlim : k = "limit" → limit ≠ 0 → v = [intStr limit]) :
    (k, v) ∈ (if limit ≠ 0 then setParam d "limit" [intStr limit] else d) := by
  by_cases hl : limit ≠ 0
  · rw [if_pos hl]
    by_cases hk : k = "limit"
    · rw [hk, hlim hk hl]
      exact mem_setParam_self _ _ _
    · exact mem_setParam_of_ne h hk
  · rw [if_neg hl]
    exact h

theorem mem_offset_step {k : String} {v : List String} (d : ParamsD) (limit offset : Int)
    (h : (k, v) ∈ d) (hoff : k ≠ "offset") :
    (k, v) ∈ (if offset ≠ 0 then setParam d "offset" [intStr (limit + offset)]
      else setParam d "offset" [intStr limit]) := by
  by_cases ho : offset ≠ 0
  · rw [if_pos ho]
    exact mem_setParam_of_ne h hoff
  · rw [if_neg ho]
    exact mem_setParam_of_ne h hoff

/-- C3 (amended): in the next URL, every original query parameter other than
`offset` and the keys the route rewrites reappears unchanged.  The items route
rewrites `coordinates` and `limit` back to their own values (so all original
parameters except `offset` survive, the rewritten time values going under the
new keys `acquisition_start_utc`/`acquisition_end_utc`), but the search route
overwrites `bbox`, `start_time` and `stop_time` with re-serializations of their
parsed values, so only parameters outside those keys survive there. -/
theorem C3_roundtrip_corrected :
    (∀ (origd : ParamsD) (coords : Option String) (st sp : Option DT) (limit offset : Int)
        (k : String) (v : List String),
      (k, v) ∈ origd → k ≠ "offset" →
      k ≠ "acquisition_start_utc" → k ≠ "acquisition_end_utc" →
      (k = "coordinates" → ∀ c, coords = some c → c ≠ "" → v = [c]) →
      (k = "limit" → limit ≠ 0 → v = [intStr limit]) →
      (k, v) ∈ items_next_params origd coords st sp limit offset) ∧
    (∀ (origd : ParamsD) (bbox : Option (List ℚ)) (st sp : Option DT) (limit offset : Int)
        (k : String) (v : List String),
      (k, v) ∈ origd → k ≠ "offset" → k ≠ "bbox" → k ≠ "start_time" → k ≠ "stop_time" →
      (k = "limit" → limit ≠ 0 → v = [intStr limit]) →
      (k, v) ∈ search_next_params origd bbox st sp limit offset) := by
  constructor
  · intro origd coords st sp limit offset k v hmem hoff hacq1 hacq2 hcoord hlim
    simp only [items_next_params]
    exact mem_offset_step _ _ _
      (mem_limit_step _ _
        (mem_times_step _ _ _ _ _ (mem_coords_step _ _ hmem hcoord) hacq1 hacq2) hlim) hoff
  · intro origd bbox st sp limit offset k v hmem hoff hbb hst hsp hlim
    simp only [search_next_params]
    exact mem_offset_step _ _ _
      (mem_limit_step _ _
        (mem_times_step _ _ _ _ _ (mem_bbox_step _ _ hmem hbb) hst hsp) hlim) hoff

/-- Witness for C3: the untouched `num` parameter survives into the items
next URL. -/
theorem C3_roundtrip_witness :
    ("num", ["5"]) ∈ items_next_params [("num", ["5"])] none none none 10 0 :=
  C3_roundtrip_corrected.1 [("num", ["5"])] none none none 10 0 "num" ["5"]
    (by decide) (by decide) (by decide) (by decide)
    (fun h => absurd h (by decide)) (fun h => absurd h (by decide))

/-- C3 counterexample: for the reachable search request
`?start_time=2023-01-01T00:00:00Z&stop_time=2023-01-02T00:00:00Z&limit=2` whose
page is full (2 products), the next URL's `start_time` is the `str()` of the
parsed datetime, `"2023-01-01 00:00:00"`, not the original value — an original
parameter other than `offset` does not reappear unchanged. -/
theorem C3_roundtrip_counterexample :
    lookupP (search_next_params
        [("start_time", ["2023-01-01T00:00:00Z"]), ("stop_time", ["2023-01-02T00:00:00Z"]),
         ("limit", ["2"])]
        none (some ⟨2023, 1, 1, 0, 0, 0, 0⟩) (some ⟨2023, 1, 2, 0, 0, 0, 0⟩) 2 0)
        "start_time" = some ["2023-01-01 00:00:00"] ∧
    ("start_time", ["2023-01-01T00:00:00Z"]) ∉ search_next_params
        [("start_time", ["2023-01-01T00:00:00Z"]), ("stop_time", ["2023-01-02T00:00:00Z"]),
         ("limit", ["2"])]
        none (some ⟨2023, 1, 1, 0, 0, 0, 0⟩) (some ⟨2023, 1, 2, 0, 0, 0, 0⟩) 2 0 := by
  decide

theorem bbox_seg_eq (b : Option (List ℚ)) :
    (match b with
      | some l => if l ≠ [] then [SClause.bboxI] else []
      | none => ([] : List SClause)) = if b.getD [] ≠ [] then [SClause.bboxI] else [] := by
  rcases b with _ | l
  · simp
  · simp [Option.getD]

theorem tf_seg_eq (tf : Option (DT × DT)) :
    (match tf with | some _ => [SClause.timeOrder] | none => ([] : List SClause))
      = if tf.isSome = true then [SClause.timeOrder] else [] := by
  rcases tf with _ | p <;> simp

theorem str_toList_inj {a b : String} (h : a.toList = b.toList) : a = b := by
  cases a; cases b
  exact congrArg String.mk h

/-- C4 (amended): only the search route passes user-supplied scalars as bound
parameters — its query text depends only on which filter clauses are active
(`collectionId`/`bbox`/time presence, `limit`/`offset` truthiness), never on
the scalar values.  The items routes interpolate the scalars into the query
text: requests that differ only in the collection id (or item id) produce
different query texts. -/
theorem C4_bound_params_corrected :
    (∀ (cid1 cid2 : Option String) (b1 b2 : Option (List ℚ)) (tf1 tf2 : Option (DT × DT))
        (l1 l2 o1 o2 : Int),
      pyTruthyStr cid1 = pyTruthyStr cid2 →
      (b1.getD [] ≠ [] ↔ b2.getD [] ≠ []) →
      tf1.isSome = tf2.isSome →
      (l1 ≠ 0 ↔ l2 ≠ 0) → (o1 ≠ 0 ↔ o2 ≠ 0) →
      search_text cid1 b1 tf1 l1 o1 = search_text cid2 b2 tf2 l2 o2) ∧
    (∀ (base cid1 cid2 : String) (w : Option String) (tf : Option (DT × DT))
        (num : Option Int) (limit offset : Int),
      cid1 ≠ cid2 →
      items_text base cid1 w tf num limit offset ≠ items_text base cid2 w tf num limit offset) ∧
    (∀ (base cid id1 id2 : String),
      id1 ≠ id2 → item_textC base cid id1 ≠ item_textC base cid id2) := by
  refine ⟨?_, ?_, ?_⟩
  · intro cid1 cid2 b1 b2 tf1 tf2 l1 l2 o1 o2 h1 h2 h3 h4 h5
    unfold search_text search_textC search_clauses
    rw [bbox_seg_eq, bbox_seg_eq, tf_seg_eq, tf_seg_eq, h1, h3,
      if_congr h2 rfl rfl, if_congr h4 rfl rfl, if_congr h5 rfl rfl]
  · intro base cid1 cid2 w tf num limit offset hne heq
    apply hne
    have heqC : items_textC base cid1 w tf num limit offset
        = items_textC base cid2 w tf num limit offset :=
      congrArg String.data heq
    unfold items_textC items_clauses at heqC
    simp only [joinIC_append, joinIC, IClause.renderC, List.append_nil,
      List.append_assoc] at heqC
    have h1 := List.append_cancel_left heqC
    have h2 := List.append_cancel_left h1
    apply str_toList_inj
    exact List.append_cancel_right h2
  · intro base cid id1 id2 hne heq
    apply hne
    unfold item_textC at heq
    simp only [List.append_assoc] at heq
    have h1 := List.append_cancel_left heq
    have h2 := List.append_cancel_left h1
    have h3 := List.append_cancel_left h2
    have h4 := List.append_cancel_left h3
    apply str_toList_inj
    exact List.append_cancel_right h4

/-- Witness for C4: two search requests with different collection ids, limits
and offsets (same filter shape) produce the identical query text. -/
theorem C4_bound_params_witness :
    search_text (some "PierSight_V01") none none 10 5
      = search_text (some "OTHER") none none 11 7 :=
  C4_bound_params_corrected.1 (some "PierSight_V01") (some "OTHER") none none none none
    10 11 5 7 (by decide) (by decide) (by decide) (by decide) (by decide)

/-- C4 counterexample: two collection-items requests identical except for the
collection id scalar produce different query texts — the id is interpolated
into the text, not bound. -/
theorem C4_bound_params_counterexample :
    (items_text "SELECT * FROM stac " "SAT-A" none none none 10 0
      == items_text "SELECT * FROM stac " "SAT-B" none none none 10 0) = false ∧
    items_text "SELECT * FROM stac " "SAT-A" none none none 10 0
      = "SELECT * FROM stac WHERE satellite_name = 'SAT-A' LIMIT 10 " := by decide

theorem parseFloats_length (fp : String → Option ℚ) :
    ∀ (ts : List String) (l : List ℚ), parseFloats fp ts = some l → l.length = ts.length := by
  intro ts
  induction ts with
  | nil =>
    intro l h
    simp [parseFloats] at h
    simp [← h]
  | cons t ts ih =>
    intro l h
    simp only [parseFloats] at h
    rcases hf : fp t with _ | v
    · rw [hf] at h; simp at h
    · rw [hf] at h
      rcases hr : parseFloats fp ts with _ | vs
      · rw [hr] at h; simp at h
      · rw [hr] at h
        simp only [Option.some.injEq] at h
        subst h
        simp [ih vs hr]

theorem parseFloats_isSome (fp : String → Option ℚ) :
    ∀ (ts : List String) (l : List ℚ), parseFloats fp ts = some l →
      ∀ t ∈ ts, (fp t).isSome = true := by
  intro ts
  induction ts with
  | nil => intro l h t ht; simp at ht
  | cons t0 ts ih =>
    intro l h t ht
    simp only [parseFloats] at h
    rcases hf : fp t0 with _ | v
    · rw [hf] at h; simp at h
    · rw [hf] at h
      rcases hr : parseFloats fp ts with _ | vs
      · rw [hr] at h; simp at h
      · rcases List.mem_cons.mp ht with rfl | ht'
        · simp [hf]
        · exact ih vs hr t ht'

/-- C5: the search route's bbox pipeline accepts only strings that split on
commas into exactly 4 or 6 float-parsable components, and `validate_bbox`
rejects every 4- or 6-element numeric box with `min_lon > max_lon` or
`min_lat > max_lat` with a 422 client error. -/
theorem C5_bbox_validation :
    (∀ (fp : String → Option ℚ) (s : String) (res : Option (List ℚ)),
      search_bbox_phase fp (some s) = .ok res →
      ((pySplitComma s).length = 4 ∨ (pySplitComma s).length = 6) ∧
        ∀ t ∈ pySplitComma s, (fp t).isSome = true) ∧
    (∀ (q : List ℚ) (a b c d : ℚ) (r : List ℚ),
      q = a :: b :: c :: d :: r → (q.length = 4 ∨ q.length = 6) → (a > c ∨ b > d) →
      validate_bbox_rat (some q) = .error (.http 422 "bbox coordinates are invalid.")) := by
  constructor
  · intro fp s res h
    by_cases hs : s = ""
    · subst hs
      simp [search_bbox_phase, validate_bbox_str] at h
    · have h' : (if s ≠ "" then
          (match parseFloats fp (pySplitComma s) with
            | none => Except.error (RErr.http 422
                "Invalid bounding box format. Must be comma-separated numbers.")
            | some l =>
              match validate_bbox_rat (some l) with
              | Except.error e => Except.error e
              | Except.ok _ => Except.ok (some l))
        else
          (match validate_bbox_str (some s) with
            | Except.error e => Except.error e
            | Except.ok _ => Except.ok none)) = Except.ok res := h
      rw [if_pos hs] at h'
      rcases hpf : parseFloats fp (pySplitComma s) with _ | l
      · rw [hpf] at h'; simp at h'
      · rw [hpf] at h'
        have h2 : (match validate_bbox_rat (some l) with
            | Except.error e => Except.error e
            | Except.ok _ => Except.ok (some l)) = Except.ok res := h'
        cases hval : validate_bbox_rat (some l) with
        | error e => rw [hval] at h2; simp at h2
        | ok u =>
          have hlen : l.length = 4 ∨ l.length = 6 := by
            by_contra hcon
            have hval' : (if ¬(l.length = 4 ∨ l.length = 6) then
                Except.error (RErr.http 422 "bbox must have 4 or 6 numbers.")
              else
                (match l with
                  | min_lon :: min_lat :: max_lon :: max_lat :: _ =>
                    if min_lon > max_lon ∨ min_lat > max_lat then
                      Except.error (RErr.http 422 "bbox coordinates are invalid.")
                    else Except.ok ()
                  | _ => Except.ok ())) = Except.ok u := hval
            rw [if_pos hcon] at hval'
            simp at hval'
          constructor
          · rw [← parseFloats_length fp _ l hpf]; exact hlen
          · exact parseFloats_isSome fp _ l hpf
  · intro q a b c d r hq hlen hcmp
    subst hq
    show (if ¬((a :: b :: c :: d :: r).length = 4 ∨ (a :: b :: c :: d :: r).length = 6) then
        Except.error (RErr.http 422 "bbox must have 4 or 6 numbers.")
      else if a > c ∨ b > d then
        Except.error (RErr.http 422 "bbox coordinates are invalid.")
      else Except.ok ()) = Except.error (RErr.http 422 "bbox coordinates are invalid.")
    rw [if_neg (not_not_intro hlen), if_pos hcmp]

/-- A concrete stand-in for Python's `float` parser, for witnesses. -/
def fpDemo : String → Option ℚ := fun t =>
  if t = "0" then some 0 else if t = "1" then some 1 else if t = "2" then some 2 else none

/-- Witness for C5: `bbox=0,0,1,1` passes the pipeline (4 numeric components)
and the inverted box `[2,0,1,1]` is rejected with the 422 error. -/
theorem C5_bbox_validation_witness :
    (((pySplitComma "0,0,1,1").length = 4 ∨ (pySplitComma "0,0,1,1").length = 6) ∧
      ∀ t ∈ pySplitComma "0,0,1,1", (fpDemo t).isSome = true) ∧
    validate_bbox_rat (some [(2 : ℚ), 0, 1, 1])
      = .error (.http 422 "bbox coordinates are invalid.") :=
  ⟨C5_bbox_validation.1 fpDemo "0,0,1,1" (some [0, 0, 1, 1]) (by decide),
   C5_bbox_validation.2 [2, 0, 1, 1] 2 0 1 1 [] rfl (by decide) (by norm_num)⟩

/-- C6: the items route passes the WKT `coordinates` string to
`validate_bbox`, whose docstring says it "validates that the provided
coordinates are in a valid WKT format" but whose body checks `len(bbox)` ∈
{4, 6}.  Evaluating the embedded code at the failing input: the valid WKT
`"POINT (30 10)"` (length 13) is rejected with the 422 bbox-shape error before
any store work, contradicting the claim that a valid WKT string of any length
passes spatial-filter validation. -/
theorem C6_wkt_validation_bug :
    validate_inputs_items (some "POINT (30 10)") none none
      = .error (.http 422 "bbox must have 4 or 6 numbers.") ∧
    items_route ["PierSight_V01"] "SELECT * FROM stac " (fun w => some w)
        ⟨"PierSight_V01", some "POINT (30 10)", none, none, none, 10, 0, []⟩
      = ⟨.error (.http 422 "bbox must have 4 or 6 numbers."), false, []⟩ := by decide

/-- C7 (amended): both routes compare the raw time strings with Python string
order, so for requests whose other filters pass validation, the request is
rejected with the 400 range error exactly when (iff) `start_time > stop_time`
lexicographically — which agrees with chronological order only when both
timestamps share the same fixed-width format.  The check runs only after both
strings pass ISO-8601 format validation: format failures surface first, as 422
errors with no store work.  Stated for the items route (any `coordinates` that
pass validation) and for the search route both without a bbox and with a
parsed bbox. -/
theorem C7_time_range_corrected :
    (∀ (collections : List String) (base : String) (wktn : String → Option String)
        (origd : ParamsD) (cid : String) (coords : Option String) (s1 s2 : String)
        (num : Option Int) (limit offset : Int),
      cid ∈ collections →
      validate_inputs_items coords (some s1) (some s2) = .ok () →
      s1 ≠ "" → s2 ≠ "" →
      (items_route collections base wktn
          ⟨cid, coords, some s1, some s2, num, limit, offset, origd⟩
          = ⟨.error (.http 400 ("acquisition_start_utc: " ++ s1
              ++ " is exceeding acquisition_end_utc: " ++ s2)), false, []⟩
        ↔ pyStrGt s1 s2 = true)) ∧
    (∀ (collections : List String) (fp : String → Option ℚ) (cido : Option String)
        (origd : ParamsD) (s1 s2 : String) (limit offset : Int),
      (pyTruthyStr cido && decide (cido.getD "" ∉ collections)) = false →
      validate_inputs_search none (some s1) (some s2) = .ok () →
      s1 ≠ "" → s2 ≠ "" →
      (search_route collections fp ⟨cido, none, some s1, some s2, limit, offset, origd⟩
          = ⟨.error (.http 400 ("acquisition_start_utc: " ++ s1
              ++ " is exceeding acquisition_end_utc: " ++ s2)), false, []⟩
        ↔ pyStrGt s1 s2 = true)) ∧
    (∀ (collections : List String) (fp : String → Option ℚ) (cido : Option String)
        (origd : ParamsD) (s : String) (bl : List ℚ) (s1 s2 : String) (limit offset : Int),
      (pyTruthyStr cido && decide (cido.getD "" ∉ collections)) = false →
      s ≠ "" → parseFloats fp (pySplitComma s) = some bl →
      validate_inputs_search (some (.floats bl)) (some s1) (some s2) = .ok () →
      s1 ≠ "" → s2 ≠ "" →
      (search_route collections fp ⟨cido, some s, some s1, some s2, limit, offset, origd⟩
          = ⟨.error (.http 400 ("acquisition_start_utc: " ++ s1
              ++ " is exceeding acquisition_end_utc: " ++ s2)), false, []⟩
        ↔ pyStrGt s1 s2 = true)) ∧
    (∀ (collections : List String) (base : String) (wktn : String → Option String)
        (origd : ParamsD) (cid : String) (coords st sp : Option String)
        (num : Option Int) (limit offset : Int) (e : RErr),
      cid ∈ collections →
      validate_inputs_items coords st sp = .error e →
      items_route collections base wktn ⟨cid, coords, st, sp, num, limit, offset, origd⟩
        = ⟨.error e, false, []⟩) := by
  have hc1 : call_serialize_rows 1 = Except.error PyErr.typeError := by decide
  have hc2 : call_serialize_rows 2 = Except.error PyErr.nameError := by decide
  refine ⟨?_, ?_, ?_, ?_⟩
  · intro collections base wktn origd cid coords s1 s2 num limit offset hcid hv hne1 hne2
    by_cases hgt : pyStrGt s1 s2 = true
    · have hroute : items_route collections base wktn
          ⟨cid, coords, some s1, some s2, num, limit, offset, origd⟩
          = ⟨.error (.http 400 ("acquisition_start_utc: " ++ s1
              ++ " is exceeding acquisition_end_utc: " ++ s2)), false, []⟩ := by
        simp only [items_route]
        rw [if_neg (not_not_intro hcid)]
        simp [hv, pyTruthyStr, hne1, hne2, hgt]
      rw [hroute]
      simp [hgt]
    · have hgt0 : pyStrGt s1 s2 = false := by
        revert hgt; cases pyStrGt s1 s2 <;> simp
      rw [hgt0]
      constructor
      · intro heq
        simp only [items_route] at heq
        rw [if_neg (not_not_intro hcid)] at heq
        rcases coords with _ | c
        · simp [hv, pyTruthyStr, hne1, hne2, hgt0, hc1] at heq
        · by_cases hcase : c = ""
          · rw [hcase] at hv
            simp [validate_inputs_items, validate_bbox_str] at hv
          · rcases hw : wktn c with _ | w <;>
              simp [hv, pyTruthyStr, hne1, hne2, hgt0, hc1, hcase, hw] at heq
      · intro h
        exact absurd h (by decide)
  · intro collections fp cido origd s1 s2 limit offset hnocid hv hne1 hne2
    by_cases hgt : pyStrGt s1 s2 = true
    · have hroute : search_route collections fp
          ⟨cido, none, some s1, some s2, limit, offset, origd⟩
          = ⟨.error (.http 400 ("acquisition_start_utc: " ++ s1
              ++ " is exceeding acquisition_end_utc: " ++ s2)), false, []⟩ := by
        simp only [search_route]
        rw [hnocid]
        simp [hv, pyTruthyStr, hne1, hne2, hgt]
      rw [hroute]
      simp [hgt]
    · have hgt0 : pyStrGt s1 s2 = false := by
        revert hgt; cases pyStrGt s1 s2 <;> simp
      rw [hgt0]
      constructor
      · intro heq
        simp only [search_route] at heq
        rw [hnocid] at heq
        simp [hv, pyTruthyStr, hne1, hne2, hgt0, hc2] at heq
        split at heq <;> simp_all
      · intro h
        exact absurd h (by decide)
  · intro collections fp cido origd s bl s1 s2 limit offset hnocid hs hpf hv hne1 hne2
    by_cases hgt : pyStrGt s1 s2 = true
    · have hroute : search_route collections fp
          ⟨cido, some s, some s1, some s2, limit, offset, origd⟩
          = ⟨.error (.http 400 ("acquisition_start_utc: " ++ s1
              ++ " is exceeding acquisition_end_utc: " ++ s2)), false, []⟩ := by
        simp only [search_route]
        rw [hnocid]
        simp [hs, hpf, hv, pyTruthyStr, hne1, hne2, hgt]
      rw [hroute]
      simp [hgt]
    · have hgt0 : pyStrGt s1 s2 = false := by
        revert hgt; cases pyStrGt s1 s2 <;> simp
      rw [hgt0]
      constructor
      · intro heq
        simp only [search_route] at heq
        rw [hnocid] at heq
        simp [hs, hpf, hv, pyTruthyStr, hne1, hne2, hgt0, hc2] at heq
        split at heq <;> simp_all
      · intro h
        exact absurd h (by decide)
  · intro collections base wktn origd cid coords st sp num limit offset e hcid hverr
    simp only [items_route]
    rw [if_neg (not_not_intro hcid)]
    simp [hverr]

/-- Witness for C7 at two canonical-format timestamps with start after stop and
a coordinates filter (the 4-character string passes the bbox-shaped
validation). -/
theorem C7_time_range_witness :
    items_route ["S"] "B" (fun w => some w)
        ⟨"S", some "0011", some "2023-01-02T00:00:00Z", some "2023-01-01T00:00:00Z",
          none, 10, 0, []⟩
      = ⟨.error (.http 400 ("acquisition_start_utc: 2023-01-02T00:00:00Z"
          ++ " is exceeding acquisition_end_utc: 2023-01-01T00:00:00Z")), false, []⟩ :=
  (C7_time_range_corrected.1 ["S"] "B" (fun w => some w) [] "S" (some "0011")
    "2023-01-02T00:00:00Z" "2023-01-01T00:00:00Z" none 10 0
    (by decide) (by decide) (by decide) (by decide)).mpr (by decide)

/-- C7 counterexample: `start_time = "2023-01-02 00:00:01"` and
`stop_time = "2023-01-02T00:00:00"` are both valid ISO-8601 per
`fromisoformat` (any single separator character is accepted), start is
chronologically one second after stop, yet `' ' < 'T'` makes the string
comparison say start < stop, so the request is not rejected with the 400 range
error — it proceeds to the store stage (and dies in the materializer). -/
theorem C7_time_range_counterexample :
    validate_time (some "2023-01-02 00:00:01") "start_time" = .ok () ∧
    validate_time (some "2023-01-02T00:00:00") "stop_time" = .ok () ∧
    pyFromIso "2023-01-02 00:00:01" = some (⟨2023, 1, 2, 0, 0, 1, 0⟩, none) ∧
    pyFromIso "2023-01-02T00:00:00" = some (⟨2023, 1, 2, 0, 0, 0, 0⟩, none) ∧
    dtLt ⟨2023, 1, 2, 0, 0, 0, 0⟩ ⟨2023, 1, 2, 0, 0, 1, 0⟩ = true ∧
    pyStrGt "2023-01-02 00:00:01" "2023-01-02T00:00:00" = false ∧
    (items_route ["S"] "B" (fun w => some w)
        ⟨"S", none, some "2023-01-02 00:00:01", some "2023-01-02T00:00:00",
          none, 10, 0, []⟩).result = .error (.py .typeError) := by decide

/-- C8: requests with an invalid filter parameter — unknown collection id,
malformed bbox (not comma-separated floats, wrong component count, inverted
bounds, or an empty string), malformed time — are rejected before the route
opens a store connection or executes any query (empty query trace, no
connection), the unknown-collection case with the routes' 400
invalid-collection errors.  The search-route conjuncts cover every shape of
`bbox`: absent, empty, float-parse failure, and parsed-but-rejected by
`validate_bbox` (the last also covering malformed times alongside a parsed
bbox). -/
theorem C8_fail_fast :
    (∀ (collections : List String) (base : String) (wktn : String → Option String)
        (a : ItemsArgs), a.collectionId ∉ collections →
      items_route collections base wktn a
        = ⟨.error (.http 400 "Invalid satellite"), false, []⟩) ∧
    (∀ (collections : List String) (fp : String → Option ℚ) (a : SearchArgs) (c : String),
      a.collectionId = some c → c ≠ "" → c ∉ collections →
      search_route collections fp a
        = ⟨.error (.http 400 ("Invalid collection ID. Must be one of: "
            ++ String.intercalate ", " collections)), false, []⟩) ∧
    (∀ (collections : List String) (base cid itemId : String), cid ∉ collections →
      item_route collections base cid itemId
        = ⟨.error (.http 400 "Invalid satellite"), false, []⟩) ∧
    (∀ (collections : List String) (base : String) (wktn : String → Option String)
        (a : ItemsArgs) (e : RErr),
      a.collectionId ∈ collections →
      validate_inputs_items a.coordinates a.start_time a.stop_time = .error e →
      items_route collections base wktn a = ⟨.error e, false, []⟩) ∧
    (∀ (collections : List String) (fp : String → Option ℚ) (a : SearchArgs) (s : String),
      (pyTruthyStr a.collectionId && decide (a.collectionId.getD "" ∉ collections)) = false →
      a.bbox = some s → s ≠ "" → parseFloats fp (pySplitComma s) = none →
      search_route collections fp a
        = ⟨.error (.http 422 "Invalid bounding box format. Must be comma-separated numbers."),
            false, []⟩) ∧
    (∀ (collections : List String) (fp : String → Option ℚ) (a : SearchArgs) (e : RErr),
      (pyTruthyStr a.collectionId && decide (a.collectionId.getD "" ∉ collections)) = false →
      a.bbox = none →
      validate_inputs_search none a.start_time a.stop_time = .error e →
      search_route collections fp a = ⟨.error e, false, []⟩) ∧
    (∀ (collections : List String) (fp : String → Option ℚ) (a : SearchArgs)
        (s : String) (l : List ℚ) (e : RErr),
      (pyTruthyStr a.collectionId && decide (a.collectionId.getD "" ∉ collections)) = false →
      a.bbox = some s → s ≠ "" → parseFloats fp (pySplitComma s) = some l →
      validate_inputs_search (some (.floats l)) a.start_time a.stop_time = .error e →
      search_route collections fp a = ⟨.error e, false, []⟩) ∧
    (∀ (collections : List String) (fp : String → Option ℚ) (a : SearchArgs) (e : RErr),
      (pyTruthyStr a.collectionId && decide (a.collectionId.getD "" ∉ collections)) = false →
      a.bbox = some "" →
      validate_inputs_search (some (.str "")) a.start_time a.stop_time = .error e →
      search_route collections fp a = ⟨.error e, false, []⟩) := by
  refine ⟨?_, ?_, ?_, ?_, ?_, ?_, ?_, ?_⟩
  · intro collections base wktn a h
    simp only [items_route]
    rw [if_pos h]
  · intro collections fp a c hc hcne hnotin
    simp only [search_route]
    rw [if_pos (by rw [hc]; simp [pyTruthyStr, hcne, hnotin])]
  · intro collections base cid itemId h
    simp only [item_route]
    rw [if_pos h]
  · intro collections base wktn a e hcid hverr
    simp only [items_route]
    rw [if_neg (not_not_intro hcid)]
    simp [hverr]
  · intro collections fp a s hnocid hbbox hs hpf
    simp only [search_route]
    rw [if_neg (show ¬((pyTruthyStr a.collectionId
        && decide (a.collectionId.getD "" ∉ collections)) = true) from by
      rw [hnocid]; exact Bool.false_ne_true)]
    simp [hbbox, hs, hpf]
  · intro collections fp a e hnocid hbbox hverr
    simp only [search_route]
    rw [if_neg (show ¬((pyTruthyStr a.collectionId
        && decide (a.collectionId.getD "" ∉ collections)) = true) from by
      rw [hnocid]; exact Bool.false_ne_true)]
    simp [hbbox, hverr]
  · intro collections fp a s l e hnocid hbbox hs hpf hverr
    simp only [search_route]
    rw [if_neg (show ¬((pyTruthyStr a.collectionId
        && decide (a.collectionId.getD "" ∉ collections)) = true) from by
      rw [hnocid]; exact Bool.false_ne_true)]
    simp [hbbox, hs, hpf, hverr]
  · intro collections fp a e hnocid hbbox hverr
    simp only [search_route]
    rw [if_neg (show ¬((pyTruthyStr a.collectionId
        && decide (a.collectionId.getD "" ∉ collections)) = true) from by
      rw [hnocid]; exact Bool.false_ne_true)]
    simp [hbbox, hverr]

/-- Witness for C8 at a concrete unknown collection id. -/
theorem C8_fail_fast_witness :
    items_route ["PierSight_V01"] "B" (fun w => some w)
        ⟨"UNKNOWN", none, none, none, none, 10, 0, []⟩
      = ⟨.error (.http 400 "Invalid satellite"), false, []⟩ :=
  C8_fail_fast.1 ["PierSight_V01"] "B" (fun w => some w)
    ⟨"UNKNOWN", none, none, none, none, 10, 0, []⟩ (by decide)

/-- Whether a handler outcome is a successful page. -/
def resultOk : Except RErr Page → Bool
  | .ok _ => true
  | .error _ => false

/-- C9: `serialize_rows`'s body loads the name `dataframe`, which is neither a
parameter (`rows`, `keys`) nor a module-level name of utils.py, so the search
route's two-argument call raises `NameError` and the items routes'
one-argument calls raise `TypeError` (arity mismatch); consequently no request
to any of the three routes ever returns a page. -/
theorem C9_serialize_always_fails :
    call_serialize_rows 2 = .error .nameError ∧
    call_serialize_rows 1 = .error .typeError ∧
    (∀ (collections : List String) (base : String) (wktn : String → Option String)
        (a : ItemsArgs), resultOk (items_route collections base wktn a).result = false) ∧
    (∀ (collections : List String) (fp : String → Option ℚ) (a : SearchArgs),
      resultOk (search_route collections fp a).result = false) ∧
    (∀ (collections : List String) (base cid itemId : String),
      resultOk (item_route collections base cid itemId).result = false) := by
  have hc1 : call_serialize_rows 1 = Except.error PyErr.typeError := by decide
  have hc2 : call_serialize_rows 2 = Except.error PyErr.nameError := by decide
  refine ⟨hc2, hc1, ?_, ?_, ?_⟩
  · intro collections base wktn a
    simp only [items_route, hc1]
    repeat' split
    all_goals rfl
  · intro collections fp a
    simp only [search_route, hc2]
    repeat' split
    all_goals rfl
  · intro collections base cid itemId
    simp only [item_route, hc1]
    repeat' split
    all_goals rfl

/-- C10 (amended): only the search route's query text ever contains an
`ORDER BY` clause, and there it is present exactly when the time filter is
active (both bounds supplied and surviving the strict `strptime` conversion —
the fused range-plus-ordering fragment); the items route's query text contains
no `ORDER BY` for any inputs whose base query, collection id and normalized
WKT are themselves free of the keyword, and LIMIT/OFFSET clauses are still
appended without any ordering when the time filter is absent. -/
theorem C10_order_by_corrected :
    (∀ (cid : Option String) (bbox : Option (List ℚ)) (tf : Option (DT × DT))
        (limit offset : Int),
      hasSeq orderKey (search_textC cid bbox tf limit offset) = tf.isSome) ∧
    (∀ (base cid : String) (w : Option String) (tf : Option (DT × DT))
        (num : Option Int) (limit offset : Int),
      hasSeq orderKey base.toList = false →
      hasSeq orderKey (IClause.renderC (.sat cid)) = false →
      (∀ ws, w = some ws → hasSeq orderKey (IClause.renderC (.spatial ws)) = false) →
      hasSeq orderKey (items_textC base cid w tf num limit offset) = false) ∧
    (∀ (cid : Option String) (bbox : Option (List ℚ)) (limit offset : Int),
      (limit ≠ 0 → SClause.lim ∈ search_clauses cid bbox none limit offset) ∧
      (offset ≠ 0 → SClause.off ∈ search_clauses cid bbox none limit offset)) := by
  refine ⟨search_textC_order, items_textC_noSeq, ?_⟩
  intro cid bbox limit offset
  constructor
  · intro hl
    simp [search_clauses, hl]
  · intro ho
    simp [search_clauses, ho]

/-- Witness for C10: a collection-items query with both time bounds supplied
contains no ordering clause. -/
theorem C10_order_by_witness :
    hasSeq orderKey (items_textC "SELECT * FROM stac " "PierSight_V01" none
      (some (⟨2024, 1, 1, 0, 0, 0, 0⟩, ⟨2024, 1, 31, 23, 59, 59, 0⟩)) none 10 0) = false :=
  C10_order_by_corrected.2.1 "SELECT * FROM stac " "PierSight_V01" none
    (some (⟨2024, 1, 1, 0, 0, 0, 0⟩, ⟨2024, 1, 31, 23, 59, 59, 0⟩)) none 10 0
    (by decide) (by decide) (fun ws h => nomatch h)

/-- C10 counterexample: an items-route query with both time bounds supplied
(and hence a time-range clause in the text) contains no `ORDER BY`, refuting
"an ordering clause is present iff both time bounds are supplied". -/
theorem C10_order_by_counterexample :
    hasSeq orderKey (items_textC "SELECT * FROM stac " "SAT" none
      (some (⟨2024, 1, 1, 0, 0, 0, 0⟩, ⟨2024, 2, 1, 0, 0, 0, 0⟩)) none 10 0) = false ∧
    (some ((⟨2024, 1, 1, 0, 0, 0, 0⟩ : DT), (⟨2024, 2, 1, 0, 0, 0, 0⟩ : DT))
      : Option (DT × DT)) ≠ none := by decide
